import Mathlib

/-!
Shallow embedding of the PRS automation repository:
`individual_conversion.py` (genotype recode converter),
`prs_gui.py` (score-script synthesizer and its pipeline orchestrator), and
`prs_pipeline.py` (the CLI pipeline orchestrator).
Python text values are modelled as `String` / `List Char`; the helpers below
mirror the exact semantics of the `str.split`, `str.replace` and
`'\t'.join` calls the scripts make.
-/

/-- Python `s.split(c)` for a one-character separator: splits at every
occurrence and keeps empty pieces. -/
def pySplitChar (c : Char) : List Char → List (List Char)
  | [] => [[]]
  | x :: xs =>
    match pySplitChar c xs with
    | [] => [[]]
    | h :: t => if x = c then [] :: h :: t else (x :: h) :: t

/-- The literal pattern `".par"` as a character list. -/
def parPat : List Char := ['.', 'p', 'a', 'r']

/-- Python `s.replace(".par", "")`: deletes every non-overlapping occurrence
of `".par"`, scanning left to right.  The first argument counts characters of
a matched occurrence that remain to be skipped. -/
def removeParGo : Nat → List Char → List Char
  | _, [] => []
  | k + 1, _ :: xs => removeParGo k xs
  | 0, x :: xs =>
    if parPat.isPrefixOf (x :: xs) then removeParGo 3 xs else x :: removeParGo 0 xs

def removePar (l : List Char) : List Char := removeParGo 0 l

/-- Python `'\t'.join`. -/
def joinTab : List String → String
  | [] => ""
  | [x] => x
  | x :: y :: rest => x ++ "\t" ++ joinTab (y :: rest)

theorem strDataAppend (a b : String) : (a ++ b).data = a.data ++ b.data := by
  cases a
  cases b
  rfl

theorem strMkData (s : String) : String.mk s.data = s := by
  cases s
  rfl

theorem tabData : ("\t" : String).data = ['\t'] := rfl

/-! ## Genotype Recode Converter (`individual_conversion.py`) -/

/-- One cell of the allele-count table: `none` is the missing sentinel
(pandas `NaN`, detected by `pd.isna`), `some v` the value printed as
`str(int(row[col]))`. -/
def genotypeString : Option Int → String
  | none => "NA"
  | some v => toString v

/-- One row of the `.raw` allele-count table.  The file carries the fixed
six-column prefix `FID IID PAT MAT SEX PHENOTYPE`; of these only `IID` is
consumed when building the output, so only it is retained here. -/
structure RawRow where
  iid : String
  genotypes : List (Option Int)
  deriving DecidableEq

/-- The `.raw` allele-count table: variant column names (everything after the
six fixed sample columns, in header order) and the sample rows in file
order. -/
structure RawTable where
  variantCols : List String
  rows : List RawRow
  deriving DecidableEq

/-- One record of the `.bim` variant-metadata table (six positional
columns). -/
structure BimRecord where
  chr : String
  rsid : String
  cm : Int
  pos : Int
  a1 : String
  a2 : String
  deriving DecidableEq

/-- `bim_data['var_id'] = rsid + '_' + a1`; computed by the converter but not
consumed by the output construction (the metadata join is best-effort). -/
def bimVarId (b : BimRecord) : String := b.rsid ++ "_" ++ b.a1

/-- Body of the header loop in the metadata-present branch:
`if '_' in col: parts = col.split('_'); if len(parts) >= 2: append(col)`
`else: append(col)`. -/
def headerEntry (col : String) : List String :=
  if '_' ∈ col.data then
    if 2 ≤ (pySplitChar '_' col.data).length then [col] else []
  else [col]

def headerTail : List String → List String
  | [] => []
  | c :: cs => headerEntry c ++ headerTail cs

/-- The output header line: `'IID'` then the variant columns, assembled by the
metadata-present loop or taken as-is when the `.bim` file is absent. -/
def headerLine (bim : Option (List BimRecord)) (cols : List String) : String :=
  match bim with
  | some _ => joinTab (("IID") :: headerTail cols)
  | none => joinTab (("IID") :: cols)

/-- One output data line: `f"{sample_id}\t" + '\t'.join(genotypes)`. -/
def rowLine (r : RawRow) : String :=
  r.iid ++ "\t" ++ joinTab (r.genotypes.map genotypeString)

inductive ConvError
  | inputNotFound
  deriving DecidableEq

structure ConvOutput where
  outputLines : List String
  warnedMissingBim : Bool
  deriving DecidableEq

inductive ConvResult
  | ok (out : ConvOutput)
  | error (e : ConvError)
  deriving DecidableEq

def ConvResult.isError : ConvResult → Bool
  | .ok _ => false
  | .error _ => true

/-- `convert_genotypes()`: raises `FileNotFoundError` (InputNotFound) when the
`.raw` table is absent; an absent `.bim` table only sets a warning and falls
back to the raw column names. -/
def convertGenotypes (raw : Option RawTable) (bim : Option (List BimRecord)) : ConvResult :=
  match raw with
  | none => ConvResult.error ConvError.inputNotFound
  | some t =>
      ConvResult.ok ⟨headerLine bim t.variantCols :: t.rows.map rowLine, bim.isNone⟩

/-- Exit status of `individual_conversion.main`: `sys.exit(0)` when
`convert_genotypes` returned `True`, `sys.exit(1)` otherwise. -/
def mainExit (raw : Option RawTable) (bim : Option (List BimRecord)) : Nat :=
  match convertGenotypes raw bim with
  | .ok _ => 0
  | .error _ => 1

/-- The tab-separated fields of an emitted line. -/
def lineFields (s : String) : List String := (pySplitChar '\t' s.data).map String.mk

/-- C6: the converter's per-cell value mapping is total and exclusive:
the missing sentinel maps to the literal string `NA`, and each allele count in
`{0,1,2}` maps to its exact decimal string, distinct from `NA` and from each
other.  (Other cell values are not valid input — a precondition.) -/
theorem c6_value_mapping :
    genotypeString none = "NA"
    ∧ genotypeString (some 0) = "0"
    ∧ genotypeString (some 1) = "1"
    ∧ genotypeString (some 2) = "2"
    ∧ genotypeString (some 0) ≠ "NA"
    ∧ genotypeString (some 1) ≠ "NA"
    ∧ genotypeString (some 2) ≠ "NA"
    ∧ genotypeString (some 0) ≠ genotypeString (some 1)
    ∧ genotypeString (some 0) ≠ genotypeString (some 2)
    ∧ genotypeString (some 1) ≠ genotypeString (some 2) := by
  decide

/-! ## Score-Script Synthesizer (`create_ett_score_script` in `prs_gui.py`) -/

/-- `glob.glob(os.path.join(prs_score_dir, "*.par"))` membership test on one
file name: the name ends in `".par"` and, as for any `*` glob, does not start
with a dot. -/
def matchesParGlob (f : String) : Bool :=
  parPat.isSuffixOf f.data &&
    (match f.data with
     | [] => false
     | c :: _ => c != '.')

/-- The scoring-model files discovered in the directory listing, in listing
order. -/
def globPar (listing : List String) : List String := listing.filter matchesParGlob

/-- `output_name = par_name.replace('.par', '')`. -/
def outputName (parName : String) : String := String.mk (removePar parName.data)

/-- Modelled from the spec: the output basename "derived by stripping the
model file's .par extension" — drop a final `".par"` and nothing else.  Kept
distinct from `outputName`, the code's replace-all behaviour, so the two can
be compared. -/
def stripParExt (s : String) : String :=
  if parPat.isSuffixOf s.data then String.mk (s.data.take (s.data.length - 4)) else s

/-- The plink2 scoring command synthesized for one `.par` file. -/
def scoreCommand (plink2Bin parName : String) : String :=
  plink2Bin ++ " --bfile \"$INPUT_PREFIX\" --out \"$OUTPUT_DIR/" ++ outputName parName
    ++ "\" --score \"$PRS_SCORE_DIR/" ++ parName
    ++ "\" 1 2 4 header cols=+scoresums no-mean-imputation"

/-- The full per-model block appended to the script for one `.par` file:
echo, scoring command, and a per-model continue-on-error status report. -/
def scoreBlock (plink2Bin parName : String) : String :=
  "\necho \"Processing " ++ outputName parName ++ "...\"\n"
    ++ scoreCommand plink2Bin parName
    ++ "\nif [ $? -eq 0 ]; then\n    echo \"✓ " ++ outputName parName
    ++ " completed\"\nelse\n    echo \"✗ " ++ outputName parName ++ " failed\"\nfi\n"

def scriptHeaderText (prsScoreDir : String) : String :=
  "#!/bin/bash\n\n# ETT Score Script - Generated dynamically\n# Usage: ./ETT_score_2.sh <input_prefix> <output_dir>\n\nINPUT_PREFIX=$1\nOUTPUT_DIR=$2\nPRS_SCORE_DIR=\"" ++ prsScoreDir
    ++ "\"\n\nif [ -z \"$INPUT_PREFIX\" ] || [ -z \"$OUTPUT_DIR\" ]; then\n    echo \"Usage: $0 <input_prefix> <output_dir>\"\n    exit 1\nfi\n\n# Create output directory if it doesn't exist\nmkdir -p \"$OUTPUT_DIR\"\n\n# Process each score file\necho \"Processing PRS scores for $INPUT_PREFIX...\"\n\n"

def scriptFooterText : String :=
  "\necho \"All PRS scores processed!\"\necho \"Results saved in: $OUTPUT_DIR\"\n"

def concatAll : List String → String
  | [] => ""
  | x :: xs => x ++ concatAll xs

inductive SynthError
  | noModelFilesFound
  deriving DecidableEq

structure SynthScript where
  path : String
  blocks : List String
  text : String
  deriving DecidableEq

inductive SynthResult
  | ok (s : SynthScript)
  | error (e : SynthError)
  deriving DecidableEq

/-- The fixed script location `os.path.join(BASE_DIR, "PRS_Files", "ETT_score_2.sh")`. -/
def ettScriptPath (baseDir : String) : String := baseDir ++ "/PRS_Files/ETT_score_2.sh"

/-- `create_ett_score_script(prs_score_dir, sample_id)`.  `plink2Bin` is the
`plink2` value read from the configuration file at synthesis time; the
`sample_id` parameter of the source function is unused by its body.  Raises
(`NoModelFilesFound`) when no `.par` file matches, before anything is
written. -/
def createEttScoreScript (baseDir plink2Bin prsScoreDir : String)
    (listing : List String) : SynthResult :=
  let parFiles := globPar listing
  if parFiles.isEmpty then SynthResult.error SynthError.noModelFilesFound
  else
    SynthResult.ok
      ⟨ettScriptPath baseDir, parFiles.map (scoreBlock plink2Bin),
        scriptHeaderText prsScoreDir ++ concatAll (parFiles.map (scoreBlock plink2Bin))
          ++ scriptFooterText⟩

/-- Content of the fixed script location after one synthesizer run, given its
content before the run: `open(path, "w")` overwrites on success, while the
empty-set failure is raised before the file is opened, leaving it untouched. -/
def fileAfterSynth (baseDir plink2Bin prsScoreDir : String) (listing : List String)
    (prev : Option String) : Option String :=
  match createEttScoreScript baseDir plink2Bin prsScoreDir listing with
  | SynthResult.error _ => prev
  | SynthResult.ok s => some s.text

/-- Decidable statement that `".par"` occurs nowhere in `u ++ ".par"` except
as the final extension. -/
def parOnlyAtEnd (u : List Char) : Bool :=
  (List.range u.length).all fun i => !(parPat.isPrefixOf ((u ++ parPat).drop i))

/-! ## Pipeline orchestrators

`run_pipeline_cli` in `prs_pipeline.py` and in `prs_gui.py`.  Each external
invocation made through `run(...)` uses `check=True`, so a non-zero exit
raises `subprocess.CalledProcessError`; missing required artifacts raise
`FileNotFoundError`.  Both functions wrap their stage sequence in
`try: ... except subprocess.CalledProcessError ... except FileNotFoundError
... except Exception`, printing the error and returning.  The environment
records, for one run, which external calls would succeed and which files
exist; pure file writes (template patching, script chmod, `safe_copy`) are
assumed to succeed, as the spec models no filesystem-level I/O faults. -/

inductive Stage
  | validate
  | importVcf
  | normalizeIds
  | score
  | recode
  | convert
  | ancestry
  | parseAncestry
  | report
  deriving DecidableEq

/-- The Python exception class a failing stage raises. -/
inductive Cause
  | toolFailure
  | fileNotFound
  deriving DecidableEq

inductive RunOutcome
  | completed
  | failed (s : Stage) (c : Cause)
  | argsMissing
  | scoreDirMissing
  deriving DecidableEq

/-- Environment of one `prs_pipeline.py` run. -/
structure Env where
  argsProvided : Bool
  vcfExists : Bool
  plinkImportOk : Bool
  plink2NormOk : Bool
  ettScriptExists : Bool
  scoreRunOk : Bool
  recodeOk : Bool
  templateExists : Bool
  conversionRunOk : Bool
  convOutputExists : Bool
  ancestryOk : Bool
  parseScriptExists : Bool
  parseOk : Bool
  reportScriptExists : Bool
  reportOk : Bool
  deriving DecidableEq

/-- `run_pipeline_cli` of `prs_pipeline.py`: the stages whose command or check
actually ran, and the run outcome.  The docker ancestry step (step 7) has no
inner `try`, so its failure propagates to the outer handlers; steps 8 and 9
run only when their script artifact exists, but once invoked their failure
also propagates. -/
def runPipelineCli (e : Env) : List Stage × RunOutcome :=
  if !e.argsProvided then ([], RunOutcome.argsMissing)
  else if !e.vcfExists then
    ([Stage.validate], RunOutcome.failed Stage.validate Cause.fileNotFound)
  else if !e.plinkImportOk then
    ([Stage.validate, Stage.importVcf], RunOutcome.failed Stage.importVcf Cause.toolFailure)
  else if !e.plink2NormOk then
    ([Stage.validate, Stage.importVcf, Stage.normalizeIds],
      RunOutcome.failed Stage.normalizeIds Cause.toolFailure)
  else if !e.ettScriptExists then
    ([Stage.validate, Stage.importVcf, Stage.normalizeIds],
      RunOutcome.failed Stage.score Cause.fileNotFound)
  else if !e.scoreRunOk then
    ([Stage.validate, Stage.importVcf, Stage.normalizeIds, Stage.score],
      RunOutcome.failed Stage.score Cause.toolFailure)
  else if !e.recodeOk then
    ([Stage.validate, Stage.importVcf, Stage.normalizeIds, Stage.score, Stage.recode],
      RunOutcome.failed Stage.recode Cause.toolFailure)
  else if !e.templateExists then
    ([Stage.validate, Stage.importVcf, Stage.normalizeIds, Stage.score, Stage.recode],
      RunOutcome.failed Stage.convert Cause.fileNotFound)
  else if !e.conversionRunOk then
    ([Stage.validate, Stage.importVcf, Stage.normalizeIds, Stage.score, Stage.recode,
        Stage.convert],
      RunOutcome.failed Stage.convert Cause.toolFailure)
  else if !e.convOutputExists then
    ([Stage.validate, Stage.importVcf, Stage.normalizeIds, Stage.score, Stage.recode,
        Stage.convert],
      RunOutcome.failed Stage.convert Cause.fileNotFound)
  else if !e.ancestryOk then
    ([Stage.validate, Stage.importVcf, Stage.normalizeIds, Stage.score, Stage.recode,
        Stage.convert, Stage.ancestry],
      RunOutcome.failed Stage.ancestry Cause.toolFailure)
  else if e.parseScriptExists && !e.parseOk then
    ([Stage.validate, Stage.importVcf, Stage.normalizeIds, Stage.score, Stage.recode,
        Stage.convert, Stage.ancestry, Stage.parseAncestry],
      RunOutcome.failed Stage.parseAncestry Cause.toolFailure)
  else if e.reportScriptExists && !e.reportOk then
    ([Stage.validate, Stage.importVcf, Stage.normalizeIds, Stage.score, Stage.recode,
        Stage.convert, Stage.ancestry]
      ++ (if e.parseScriptExists then [Stage.parseAncestry] else []) ++ [Stage.report],
      RunOutcome.failed Stage.report Cause.toolFailure)
  else
    ([Stage.validate, Stage.importVcf, Stage.normalizeIds, Stage.score, Stage.recode,
        Stage.convert, Stage.ancestry]
      ++ (if e.parseScriptExists then [Stage.parseAncestry] else [])
      ++ (if e.reportScriptExists then [Stage.report] else []),
      RunOutcome.completed)

/-- Which exception classes the `except` clauses of `run_pipeline_cli`
swallow: `subprocess.CalledProcessError`, `FileNotFoundError`, and a final
`except Exception` — every failure the body can raise is caught and only
printed. -/
def caughtByHandlers : Cause → Bool
  | Cause.toolFailure => true
  | Cause.fileNotFound => true

/-- Exit code of the `prs_pipeline.py` process for one CLI run: the
`__main__` block calls `run_pipeline_cli` and then falls off the end, so the
interpreter exits 0 unless an exception escapes uncaught (which would exit
1). -/
def pipelineExit (e : Env) : Nat :=
  match (runPipelineCli e).2 with
  | RunOutcome.failed _ c => if caughtByHandlers c then 0 else 1
  | _ => 0

/-- Environment of one `prs_gui.py` `run_pipeline_cli` run. -/
structure GuiEnv where
  argsProvided : Bool
  scoreDirOk : Bool
  vcfExists : Bool
  plinkImportOk : Bool
  plink2NormOk : Bool
  parFilesFound : Bool
  scoreRunOk : Bool
  recodeOk : Bool
  conversionRunOk : Bool
  convOutputExists : Bool
  ancestryOk : Bool
  parseScriptExists : Bool
  parseOk : Bool
  reportScriptExists : Bool
  reportOk : Bool
  deriving DecidableEq

structure GuiResult where
  trace : List Stage
  outcome : RunOutcome
  placeholderWritten : Bool
  handedPlaceholder : Bool
  ancestryAttempted : Bool
  ancestryFailureLogged : Bool
  deriving DecidableEq

/-- `run_pipeline_cli` of `prs_gui.py`.  Differences from `prs_pipeline.py`:
the score script is synthesized (failing with the no-model-files
`FileNotFoundError` when the directory holds no `.par` file); a missing
conversion template is auto-created, so the convert stage only fails when the
conversion subprocess exits non-zero; a missing conversion output is replaced
by a one-line placeholder file which is then copied to the ancestry
directory; and the docker ancestry step sits in its own `try`, so its failure
is logged and execution continues. -/
def runPipelineCliGui (e : GuiEnv) : GuiResult :=
  if !e.argsProvided then ⟨[], RunOutcome.argsMissing, false, false, false, false⟩
  else if !e.scoreDirOk then ⟨[], RunOutcome.scoreDirMissing, false, false, false, false⟩
  else if !e.vcfExists then
    ⟨[Stage.validate], RunOutcome.failed Stage.validate Cause.fileNotFound,
      false, false, false, false⟩
  else if !e.plinkImportOk then
    ⟨[Stage.validate, Stage.importVcf], RunOutcome.failed Stage.importVcf Cause.toolFailure,
      false, false, false, false⟩
  else if !e.plink2NormOk then
    ⟨[Stage.validate, Stage.importVcf, Stage.normalizeIds],
      RunOutcome.failed Stage.normalizeIds Cause.toolFailure, false, false, false, false⟩
  else if !e.parFilesFound then
    ⟨[Stage.validate, Stage.importVcf, Stage.normalizeIds],
      RunOutcome.failed Stage.score Cause.fileNotFound, false, false, false, false⟩
  else if !e.scoreRunOk then
    ⟨[Stage.validate, Stage.importVcf, Stage.normalizeIds, Stage.score],
      RunOutcome.failed Stage.score Cause.toolFailure, false, false, false, false⟩
  else if !e.recodeOk then
    ⟨[Stage.validate, Stage.importVcf, Stage.normalizeIds, Stage.score, Stage.recode],
      RunOutcome.failed Stage.recode Cause.toolFailure, false, false, false, false⟩
  else if !e.conversionRunOk then
    ⟨[Stage.validate, Stage.importVcf, Stage.normalizeIds, Stage.score, Stage.recode,
        Stage.convert],
      RunOutcome.failed Stage.convert Cause.toolFailure, false, false, false, false⟩
  else
    let ph := !e.convOutputExists
    let anLog := !e.ancestryOk
    if e.parseScriptExists && !e.parseOk then
      ⟨[Stage.validate, Stage.importVcf, Stage.normalizeIds, Stage.score, Stage.recode,
          Stage.convert, Stage.ancestry, Stage.parseAncestry],
        RunOutcome.failed Stage.parseAncestry Cause.toolFailure, ph, ph, true, anLog⟩
    else if e.reportScriptExists && !e.reportOk then
      ⟨[Stage.validate, Stage.importVcf, Stage.normalizeIds, Stage.score, Stage.recode,
          Stage.convert, Stage.ancestry]
        ++ (if e.parseScriptExists then [Stage.parseAncestry] else []) ++ [Stage.report],
        RunOutcome.failed Stage.report Cause.toolFailure, ph, ph, true, anLog⟩
    else
      ⟨[Stage.validate, Stage.importVcf, Stage.normalizeIds, Stage.score, Stage.recode,
          Stage.convert, Stage.ancestry]
        ++ (if e.parseScriptExists then [Stage.parseAncestry] else [])
        ++ (if e.reportScriptExists then [Stage.report] else []),
        RunOutcome.completed, ph, ph, true, anLog⟩

/-! ## Helper lemmas about the string primitives -/

theorem pySplitChar_ne_nil (c : Char) (l : List Char) : pySplitChar c l ≠ [] := by
  cases l with
  | nil => simp [pySplitChar]
  | cons x xs =>
    simp only [pySplitChar]
    cases pySplitChar c xs with
    | nil => simp
    | cons h t => by_cases hx : x = c <;> simp [hx]

theorem pySplitChar_not_mem (c : Char) (l : List Char) (h : c ∉ l) :
    pySplitChar c l = [l] := by
  induction l with
  | nil => rfl
  | cons x xs ih =>
    have hx : ¬ x = c := fun e => h (e ▸ List.mem_cons_self x xs)
    have hxs : c ∉ xs := fun m => h (List.mem_cons_of_mem _ m)
    simp [pySplitChar, ih hxs, hx]

theorem pySplitChar_append (c : Char) (l1 l2 : List Char) (h : c ∉ l1) :
    pySplitChar c (l1 ++ c :: l2) = l1 :: pySplitChar c l2 := by
  induction l1 with
  | nil =>
    obtain ⟨h0, t0, hsplit⟩ := List.exists_cons_of_ne_nil (pySplitChar_ne_nil c l2)
    simp [pySplitChar, hsplit]
  | cons x l1' ih =>
    have hx : ¬ x = c := fun e => h (e ▸ List.mem_cons_self x l1')
    have hl1' : c ∉ l1' := fun m => h (List.mem_cons_of_mem _ m)
    have hrec := ih hl1'
    simp only [List.cons_append, pySplitChar, List.append_eq, hrec, hx, if_false]

theorem pySplitChar_mem_length (c : Char) (l : List Char) (h : c ∈ l) :
    2 ≤ (pySplitChar c l).length := by
  induction l with
  | nil => cases h
  | cons x xs ih =>
    obtain ⟨h0, t0, hsplit⟩ := List.exists_cons_of_ne_nil (pySplitChar_ne_nil c xs)
    by_cases hx : x = c
    · simp [pySplitChar, hsplit, hx]
    · rcases List.mem_cons.mp h with he | hm
      · exact absurd he.symm hx
      · have := ih hm
        rw [hsplit] at this
        simp only [pySplitChar, hsplit, hx, if_false]
        simpa using this

theorem joinTab_two (x : String) (ys : List String) (h : ys ≠ []) :
    joinTab (x :: ys) = x ++ "\t" ++ joinTab ys := by
  cases ys with
  | nil => cases h rfl
  | cons y rest => rfl

theorem joinTab_data_cons (x : String) (ys : List String) (h : ys ≠ []) :
    (joinTab (x :: ys)).data = x.data ++ '\t' :: (joinTab ys).data := by
  rw [joinTab_two x ys h, strDataAppend, strDataAppend, tabData]
  simp

theorem lineFields_joinTab (fs : List String) (hne : fs ≠ [])
    (h : ∀ f ∈ fs, '\t' ∉ f.data) : lineFields (joinTab fs) = fs := by
  induction fs with
  | nil => cases hne rfl
  | cons x xs ih =>
    cases xs with
    | nil =>
      simp [joinTab, lineFields, pySplitChar_not_mem _ _ (h x (by simp)), strMkData]
    | cons y rest =>
      have hx : '\t' ∉ x.data := h x (by simp)
      have hrec := ih (by simp) (fun f hf => h f (List.mem_cons_of_mem _ hf))
      unfold lineFields at hrec ⊢
      rw [joinTab_data_cons x (y :: rest) (by simp), pySplitChar_append _ _ _ hx]
      simp only [List.map_cons, strMkData, hrec, List.cons.injEq, true_and]

theorem headerEntry_eq (c : String) : headerEntry c = [c] := by
  unfold headerEntry
  by_cases h : '_' ∈ c.data
  · simp [h, pySplitChar_mem_length '_' c.data h]
  · simp [h]

theorem headerTail_eq (cols : List String) : headerTail cols = cols := by
  induction cols with
  | nil => rfl
  | cons c cs ih => simp [headerTail, headerEntry_eq, ih]

theorem headerLine_eq (bim : Option (List BimRecord)) (cols : List String) :
    headerLine bim cols = joinTab (("IID") :: cols) := by
  cases bim <;> simp [headerLine, headerTail_eq]

theorem removeParGo_zero_cons (x : Char) (l : List Char) :
    removeParGo 0 (x :: l)
      = if parPat.isPrefixOf (x :: l) then removeParGo 3 l else x :: removeParGo 0 l := rfl

theorem removePar_append_pat (u : List Char)
    (h : ∀ i, i < u.length → parPat.isPrefixOf (List.drop i (u ++ parPat)) = false) :
    removePar (u ++ parPat) = u := by
  induction u with
  | nil => decide
  | cons x u' ih =>
    have h0 : parPat.isPrefixOf (x :: (u' ++ parPat)) = false := by
      have := h 0 (by simp)
      simpa using this
    have hrest : removePar (u' ++ parPat) = u' := by
      refine ih fun i hi => ?_
      have := h (i + 1) (by simpa using Nat.succ_lt_succ hi)
      simpa using this
    show removeParGo 0 (x :: (u' ++ parPat)) = x :: u'
    rw [removeParGo_zero_cons, h0]
    simp only [Bool.false_eq_true, if_false]
    exact congrArg (x :: ·) hrest

theorem genotypeString_no_tab (g : Option Int)
    (h : g = none ∨ g = some 0 ∨ g = some 1 ∨ g = some 2) :
    '\t' ∉ (genotypeString g).data := by
  rcases h with rfl | rfl | rfl | rfl <;> decide

/-! ## Claims about the Genotype Recode Converter -/

/-- C4: the converter fails with `InputNotFound` exactly when the allele-count
table itself is absent; with the table present conversion always succeeds, and
in particular absent variant metadata only degrades the run — the output is
built from the raw column names and the missing-metadata warning is set. -/
theorem c4_input_not_found_only :
    ∀ (raw : Option RawTable) (bim : Option (List BimRecord)),
      ((convertGenotypes raw bim).isError = true ↔ raw = none)
      ∧ (convertGenotypes raw bim = ConvResult.error ConvError.inputNotFound ↔ raw = none)
      ∧ (∀ t, raw = some t → bim = none →
          convertGenotypes raw bim
            = ConvResult.ok
                ⟨joinTab (("IID") :: t.variantCols) :: t.rows.map rowLine, true⟩) := by
  intro raw bim
  cases raw with
  | none =>
    refine ⟨by simp [convertGenotypes, ConvResult.isError], by simp [convertGenotypes], ?_⟩
    intro t ht
    cases ht
  | some t =>
    refine ⟨by simp [convertGenotypes, ConvResult.isError], by simp [convertGenotypes], ?_⟩
    intro t' ht hb
    cases ht
    subst hb
    simp [convertGenotypes, headerLine]

/-- Witness for C4: a one-sample, one-variant table converted without
metadata. -/
theorem c4_witness :
    convertGenotypes (some ⟨[("rs1_A")], [⟨("S1"), [some 2]⟩]⟩) none
      = ConvResult.ok
          ⟨joinTab (("IID") :: [("rs1_A")]) :: [(⟨("S1"), [some 2]⟩ : RawRow)].map rowLine,
            true⟩ :=
  (c4_input_not_found_only (some ⟨[("rs1_A")], [⟨("S1"), [some 2]⟩]⟩) none).2.2
    ⟨[("rs1_A")], [⟨("S1"), [some 2]⟩]⟩ rfl rfl

/-- C5 counterexample: on a table with zero variant columns (N = 0) the data
line is `"S1\t"` — the f-string always appends a tab after the sample id — so
the emitted row splits into two tab-separated fields, not N + 1 = 1.  The
claim as stated quantifies over every allele-count table and therefore fails
at this one. -/
theorem c5_counterexample :
    convertGenotypes (some ⟨[], [⟨("S1"), []⟩]⟩) none
      = ConvResult.ok ⟨[("IID"), ("S1\t")], true⟩
    ∧ lineFields ("S1\t") = [("S1"), ("")]
    ∧ (lineFields ("S1\t")).length ≠ 0 + 1 := by decide

/-- C5 (amended): for every well-formed allele-count table with N ≥ 1 variant
columns and M sample rows, the converter output is the header line followed by
exactly M data lines, one per input row in input order; the header splits into
`IID` followed by the N variant-column names verbatim — whether or not
metadata is present — and every data line splits into the sample id followed
by its N mapped genotype values, N + 1 fields throughout.  (At N = 0 the data
line gains a trailing tab and has two fields, the case the counterexample
exhibits.) -/
theorem c5_amended_shape :
    ∀ (t : RawTable) (bim : Option (List BimRecord)),
      (∀ r ∈ t.rows, r.genotypes.length = t.variantCols.length) →
      (∀ c ∈ t.variantCols, '\t' ∉ c.data) →
      (∀ r ∈ t.rows, '\t' ∉ r.iid.data) →
      (∀ r ∈ t.rows, ∀ g ∈ r.genotypes,
        g = none ∨ g = some 0 ∨ g = some 1 ∨ g = some 2) →
      1 ≤ t.variantCols.length →
      ∃ out, convertGenotypes (some t) bim = ConvResult.ok out
        ∧ out.outputLines = headerLine bim t.variantCols :: t.rows.map rowLine
        ∧ out.outputLines.length = t.rows.length + 1
        ∧ lineFields (headerLine bim t.variantCols) = ("IID") :: t.variantCols
        ∧ (lineFields (headerLine bim t.variantCols)).length = t.variantCols.length + 1
        ∧ (∀ r ∈ t.rows,
            lineFields (rowLine r) = r.iid :: r.genotypes.map genotypeString
            ∧ (lineFields (rowLine r)).length = t.variantCols.length + 1) := by
  intro t bim hlen hcols hiids hdom hN
  have hhdr : lineFields (headerLine bim t.variantCols) = ("IID") :: t.variantCols := by
    rw [headerLine_eq]
    refine lineFields_joinTab _ (by simp) ?_
    intro f hf
    rcases List.mem_cons.mp hf with rfl | hf'
    · decide
    · exact hcols f hf'
  refine ⟨⟨headerLine bim t.variantCols :: t.rows.map rowLine, bim.isNone⟩, rfl, rfl,
    by simp, hhdr, by rw [hhdr]; simp, ?_⟩
  intro r hr
  have hgne : r.genotypes ≠ [] := by
    intro hnil
    have := hlen r hr
    rw [hnil] at this
    simp at this
    omega
  have hmapne : r.genotypes.map genotypeString ≠ [] := by
    simpa using hgne
  have hrow : rowLine r = joinTab (r.iid :: r.genotypes.map genotypeString) := by
    rw [joinTab_two _ _ hmapne]
    rfl
  have hfields : lineFields (rowLine r) = r.iid :: r.genotypes.map genotypeString := by
    rw [hrow]
    refine lineFields_joinTab _ (by simp) ?_
    intro f hf
    rcases List.mem_cons.mp hf with rfl | hf'
    · exact hiids r hr
    · obtain ⟨g, hg, rfl⟩ := List.mem_map.mp hf'
      exact genotypeString_no_tab g (hdom r hr g hg)
  refine ⟨hfields, ?_⟩
  rw [hfields]
  simp [hlen r hr]

/-- Witness for C5 at the spec's worked scenario: columns `rs1_A rs2_G`, one
sample row `S1` with genotypes `0` and missing. -/
theorem c5_witness :
    ∃ out,
      convertGenotypes (some ⟨[("rs1_A"), ("rs2_G")], [⟨("S1"), [some 0, none]⟩]⟩) none
        = ConvResult.ok out
      ∧ out.outputLines.length = 2 := by
  obtain ⟨out, h1, _, h3, _⟩ :=
    c5_amended_shape ⟨[("rs1_A"), ("rs2_G")], [⟨("S1"), [some 0, none]⟩]⟩ none
      (by decide) (by decide) (by decide) (by decide) (by decide)
  exact ⟨out, h1, by simpa using h3⟩

/-! ## Claims about the Score-Script Synthesizer -/

set_option maxRecDepth 4000 in
/-- C3 counterexample: for the model file `foo.parts.par` the synthesized
invocation names the output basename `foots` — `replace('.par','')` deletes
the interior occurrence too — whereas stripping the `.par` extension yields
`foo.parts`.  The synthesized block therefore does not use the
extension-stripped basename. -/
theorem c3_counterexample :
    outputName ("foo.parts.par") = ("foots")
    ∧ stripParExt ("foo.parts.par") = ("foo.parts")
    ∧ outputName ("foo.parts.par") ≠ stripParExt ("foo.parts.par")
    ∧ createEttScoreScript ("BASE") ("plink2") ("DIR") [("foo.parts.par")]
        = SynthResult.ok
            ⟨ettScriptPath ("BASE"), [scoreBlock ("plink2") ("foo.parts.par")],
              scriptHeaderText ("DIR") ++ concatAll [scoreBlock ("plink2") ("foo.parts.par")]
                ++ scriptFooterText⟩ := by
  decide

/-- C3 (amended): for a directory listing with K ≥ 1 matching `.par` files the
synthesizer succeeds and the driver text is the header plus exactly one
scoring block per discovered file, in listing order, plus the footer — K
invocations for K files; each invocation names the output basename
`par_name.replace('.par','')`, i.e. the file name with every occurrence of
`".par"` deleted, which coincides with stripping the `.par` extension exactly
when `".par"` occurs nowhere before the extension. -/
theorem c3_amended_invocations :
    ∀ (baseDir plink2Bin prsScoreDir : String) (listing : List String),
      globPar listing ≠ [] →
      (∃ s, createEttScoreScript baseDir plink2Bin prsScoreDir listing = SynthResult.ok s
        ∧ s.blocks = (globPar listing).map (scoreBlock plink2Bin)
        ∧ s.blocks.length = (globPar listing).length
        ∧ s.text = scriptHeaderText prsScoreDir ++ concatAll s.blocks ++ scriptFooterText)
      ∧ (∀ u : List Char, parOnlyAtEnd u = true →
          outputName (String.mk (u ++ parPat)) = String.mk u
          ∧ stripParExt (String.mk (u ++ parPat)) = String.mk u) := by
  intro baseDir plink2Bin prsScoreDir listing hne
  have hempty : (globPar listing).isEmpty = false := by
    cases hgl : globPar listing with
    | nil => exact absurd hgl hne
    | cons a as => rfl
  constructor
  · refine ⟨⟨ettScriptPath baseDir, (globPar listing).map (scoreBlock plink2Bin),
      scriptHeaderText prsScoreDir
        ++ concatAll ((globPar listing).map (scoreBlock plink2Bin))
        ++ scriptFooterText⟩, ?_, rfl, by simp, rfl⟩
    simp [createEttScoreScript, hempty]
  · intro u hu
    unfold parOnlyAtEnd at hu
    have hforall : ∀ i, i < u.length →
        parPat.isPrefixOf (List.drop i (u ++ parPat)) = false := by
      intro i hi
      have h1 := List.all_eq_true.mp hu i (List.mem_range.mpr hi)
      simpa using h1
    have hrem : removePar (u ++ parPat) = u := removePar_append_pat u hforall
    constructor
    · unfold outputName
      exact congrArg String.mk hrem
    · unfold stripParExt
      have hsuf : parPat.isSuffixOf (String.mk (u ++ parPat)).data = true := by
        have : parPat <:+ u ++ parPat := List.suffix_append u parPat
        simp [List.isSuffixOf_iff_suffix, this]
      rw [hsuf]
      simp only [if_true]
      have hlen4 : parPat.length = 4 := rfl
      have : (u ++ parPat).length - 4 = u.length := by
        simp [List.length_append, hlen4]
      show String.mk ((u ++ parPat).take ((u ++ parPat).length - 4)) = String.mk u
      rw [this, List.take_left]

/-- Witness for C3: one `.par` file in the listing, and the plain name
`model1.par` whose only `".par"` occurrence is its extension. -/
theorem c3_witness :
    (∃ s, createEttScoreScript ("BASE") ("plink2") ("DIR") [("a.par")] = SynthResult.ok s
      ∧ s.blocks = (globPar [("a.par")]).map (scoreBlock ("plink2"))
      ∧ s.blocks.length = (globPar [("a.par")]).length
      ∧ s.text = scriptHeaderText ("DIR") ++ concatAll s.blocks ++ scriptFooterText)
    ∧ outputName ("model1.par") = ("model1")
    ∧ stripParExt ("model1.par") = ("model1") := by
  obtain ⟨h1, h2⟩ :=
    c3_amended_invocations ("BASE") ("plink2") ("DIR") [("a.par")] (by decide)
  have h3 := h2 (("model1").data) (by decide)
  have e1 : String.mk ((("model1").data) ++ parPat) = ("model1.par") := by decide
  have e2 : String.mk (("model1").data) = ("model1") := by decide
  rw [e1, e2] at h3
  exact ⟨h1, h3.1, h3.2⟩

/-- C7: when the scoring-model directory contains zero matching `.par` files
the synthesizer fails with `NoModelFilesFound`, and the fixed script location
is left exactly as it was — nothing is written. -/
theorem c7_no_model_files :
    ∀ (baseDir plink2Bin prsScoreDir : String) (listing : List String)
      (prev : Option String),
      globPar listing = [] →
      createEttScoreScript baseDir plink2Bin prsScoreDir listing
        = SynthResult.error SynthError.noModelFilesFound
      ∧ fileAfterSynth baseDir plink2Bin prsScoreDir listing prev = prev := by
  intro b p d l prev h
  have hempty : (globPar l).isEmpty = true := by simp [h]
  exact ⟨by simp [createEttScoreScript, hempty],
    by simp [fileAfterSynth, createEttScoreScript, hempty]⟩

/-- Witness for C7: a directory with no `.par` file, previous script content
untouched. -/
theorem c7_witness :
    createEttScoreScript ("BASE") ("plink2") ("DIR") [("weights.txt")]
      = SynthResult.error SynthError.noModelFilesFound
    ∧ fileAfterSynth ("BASE") ("plink2") ("DIR") [("weights.txt")] (some ("old"))
      = some ("old") :=
  c7_no_model_files ("BASE") ("plink2") ("DIR") [("weights.txt")] (some ("old"))
    (by decide)

set_option maxRecDepth 4000 in
/-- C9 counterexample: two synthesizer runs over the identical directory
(path and listing both equal) produce different script text when the
configured plink2 binary path differs between the runs — the script is not
determined by directory contents alone. -/
theorem c9_counterexample :
    fileAfterSynth ("BASE") ("plink2") ("DIR") [("a.par")] none
      ≠ fileAfterSynth ("BASE") ("plink2-b") ("DIR") [("a.par")] none := by
  decide

/-- C9 (amended): the synthesized script is a deterministic function of the
base directory, the configured plink2 binary, the score-directory path and
its listing; for fixed such inputs the script goes to the fixed location
`PRS_Files/ETT_score_2.sh` and the file's content after the run is the same
whatever it held before — `open(path, "w")` overwrites.  Per the
counterexample the configured plink2 path is a genuine input: directory
contents alone do not determine the text. -/
theorem c9_amended_determinism :
    ∀ (baseDir plink2Bin prsScoreDir : String) (listing : List String)
      (prev1 prev2 : Option String),
      globPar listing ≠ [] →
      ∃ s, createEttScoreScript baseDir plink2Bin prsScoreDir listing = SynthResult.ok s
        ∧ s.path = ettScriptPath baseDir
        ∧ fileAfterSynth baseDir plink2Bin prsScoreDir listing prev1 = some s.text
        ∧ fileAfterSynth baseDir plink2Bin prsScoreDir listing prev2 = some s.text := by
  intro b p d l p1 p2 hne
  have hempty : (globPar l).isEmpty = false := by
    cases hgl : globPar l with
    | nil => exact absurd hgl hne
    | cons a as => rfl
  refine ⟨⟨ettScriptPath b, (globPar l).map (scoreBlock p),
      scriptHeaderText d ++ concatAll ((globPar l).map (scoreBlock p))
        ++ scriptFooterText⟩, ?_, rfl, ?_, ?_⟩
  · simp [createEttScoreScript, hempty]
  · simp [fileAfterSynth, createEttScoreScript, hempty]
  · simp [fileAfterSynth, createEttScoreScript, hempty]

/-- Witness for C9: one `.par` file; the post-run content is independent of
the two different previous contents. -/
theorem c9_witness :
    ∃ s, createEttScoreScript ("BASE") ("plink2") ("DIR") [("a.par")] = SynthResult.ok s
      ∧ s.path = ettScriptPath ("BASE")
      ∧ fileAfterSynth ("BASE") ("plink2") ("DIR") [("a.par")] none = some s.text
      ∧ fileAfterSynth ("BASE") ("plink2") ("DIR") [("a.par")] (some ("previous"))
          = some s.text :=
  c9_amended_determinism ("BASE") ("plink2") ("DIR") [("a.par")] none (some ("previous"))
    (by decide)

/-! ## Claims about the pipeline orchestrators -/

/-- C1 counterexample: a run in which the required plink import exits
non-zero — an orchestration failure of exactly the kind the claim cites —
still ends with process exit code 0, not 1, because `run_pipeline_cli`
catches the `CalledProcessError` and only prints it. -/
theorem c1_counterexample :
    (runPipelineCli ⟨true, true, false, true, true, true, true, true, true, true, true,
        true, true, true, true⟩).2
      = RunOutcome.failed Stage.importVcf Cause.toolFailure
    ∧ pipelineExit ⟨true, true, false, true, true, true, true, true, true, true, true,
        true, true, true, true⟩ = 0
    ∧ pipelineExit ⟨true, true, false, true, true, true, true, true, true, true, true,
        true, true, true, true⟩ ≠ 1 := by
  decide

/-- C1 (amended): the conversion subprocess (`individual_conversion.py`)
exits 0 exactly on success and 1 exactly on failure, but the orchestrator
process of `prs_pipeline.py` exits 0 for every run outcome: each
orchestration failure (required tool exiting non-zero, required input file
missing) is caught by `run_pipeline_cli`'s handlers and only printed, so no
failure reaches the interpreter uncaught and the failure exit code 1 is
never produced by the orchestrator. -/
theorem c1_amended_exit_codes :
    (∀ e : Env, pipelineExit e = 0)
    ∧ (∀ (raw : Option RawTable) (bim : Option (List BimRecord)),
        (mainExit raw bim = 0 ↔ raw ≠ none) ∧ (mainExit raw bim = 1 ↔ raw = none)) := by
  constructor
  · intro e
    unfold pipelineExit
    cases h : (runPipelineCli e).2 with
    | completed => rfl
    | failed s c => cases c <;> rfl
    | argsMissing => rfl
    | scoreDirMissing => rfl
  · intro raw bim
    cases raw <;> simp [mainExit, convertGenotypes]

/-- C2 counterexample: with every required stage succeeding, an ancestry
failure is fatal in `prs_pipeline.py` (no inner `try` around the docker
step), and even in `prs_gui.py` the run does not reach `Completed` when the
parse-ancestry script exists and its invocation fails — in both runs the
outcome differs from the `Completed` the claim asserts. -/
theorem c2_counterexample :
    (runPipelineCli ⟨true, true, true, true, true, true, true, true, true, true, false,
        true, true, true, true⟩).2
      = RunOutcome.failed Stage.ancestry Cause.toolFailure
    ∧ (runPipelineCli ⟨true, true, true, true, true, true, true, true, true, true, false,
        true, true, true, true⟩).2 ≠ RunOutcome.completed
    ∧ (runPipelineCliGui ⟨true, true, true, true, true, true, true, true, true, true,
        false, true, false, true, true⟩).outcome
      = RunOutcome.failed Stage.parseAncestry Cause.toolFailure
    ∧ (runPipelineCliGui ⟨true, true, true, true, true, true, true, true, true, true,
        false, true, false, true, true⟩).outcome ≠ RunOutcome.completed := by
  decide

/-- C2 (amended): in the `prs_gui.py` orchestrator, when every required stage
succeeds and the ancestry step fails, the failure is logged and execution
proceeds to stages 8 and 9; the run reaches `Completed` provided the
parse-ancestry and report invocations, where their script artifacts exist,
also succeed.  In the `prs_pipeline.py` variant an ancestry failure instead
aborts the run as `Failed("ancestry", toolFailure)` and stages 8 and 9 never
run. -/
theorem c2_amended_ancestry_policy :
    (∀ e : GuiEnv,
      e.argsProvided = true → e.scoreDirOk = true → e.vcfExists = true →
      e.plinkImportOk = true → e.plink2NormOk = true → e.parFilesFound = true →
      e.scoreRunOk = true → e.recodeOk = true → e.conversionRunOk = true →
      e.ancestryOk = false →
      (e.parseScriptExists = false ∨ e.parseOk = true) →
      (e.reportScriptExists = false ∨ e.reportOk = true) →
      (runPipelineCliGui e).outcome = RunOutcome.completed
      ∧ (runPipelineCliGui e).ancestryFailureLogged = true
      ∧ (runPipelineCliGui e).ancestryAttempted = true
      ∧ (e.parseScriptExists = true → Stage.parseAncestry ∈ (runPipelineCliGui e).trace)
      ∧ (e.reportScriptExists = true → Stage.report ∈ (runPipelineCliGui e).trace))
    ∧ (∀ e : Env,
      e.argsProvided = true → e.vcfExists = true → e.plinkImportOk = true →
      e.plink2NormOk = true → e.ettScriptExists = true → e.scoreRunOk = true →
      e.recodeOk = true → e.templateExists = true → e.conversionRunOk = true →
      e.convOutputExists = true → e.ancestryOk = false →
      (runPipelineCli e).2 = RunOutcome.failed Stage.ancestry Cause.toolFailure
      ∧ Stage.parseAncestry ∉ (runPipelineCli e).1
      ∧ Stage.report ∉ (runPipelineCli e).1) := by
  constructor
  · intro e h1 h2 h3 h4 h5 h6 h7 h8 h9 h10 h11 h12
    rcases e with ⟨a1, a2, a3, a4, a5, a6, a7, a8, a9, a10, a11, a12, a13, a14, a15⟩
    dsimp only at h1 h2 h3 h4 h5 h6 h7 h8 h9 h10 h11 h12 ⊢
    subst h1 h2 h3 h4 h5 h6 h7 h8 h9 h10
    revert h11 h12
    revert a10 a12 a13 a14 a15
    decide
  · intro e h1 h2 h3 h4 h5 h6 h7 h8 h9 h10 h11
    rcases e with ⟨a1, a2, a3, a4, a5, a6, a7, a8, a9, a10, a11, a12, a13, a14, a15⟩
    dsimp only at h1 h2 h3 h4 h5 h6 h7 h8 h9 h10 h11 ⊢
    subst h1 h2 h3 h4 h5 h6 h7 h8 h9 h10 h11
    revert a12 a13 a14 a15
    decide

/-- Witness for C2: both conjuncts applied at concrete runs — a gui run with
all required stages succeeding, ancestry failing, parse and report scripts
present and succeeding; and a `prs_pipeline.py` run with all required stages
succeeding and ancestry failing. -/
theorem c2_witness :
    ((runPipelineCliGui ⟨true, true, true, true, true, true, true, true, true, true,
        false, true, true, true, true⟩).outcome = RunOutcome.completed
      ∧ (runPipelineCliGui ⟨true, true, true, true, true, true, true, true, true, true,
          false, true, true, true, true⟩).ancestryFailureLogged = true
      ∧ (runPipelineCliGui ⟨true, true, true, true, true, true, true, true, true, true,
          false, true, true, true, true⟩).ancestryAttempted = true
      ∧ (true = true →
          Stage.parseAncestry ∈ (runPipelineCliGui ⟨true, true, true, true, true, true,
            true, true, true, true, false, true, true, true, true⟩).trace)
      ∧ (true = true →
          Stage.report ∈ (runPipelineCliGui ⟨true, true, true, true, true, true, true,
            true, true, true, false, true, true, true, true⟩).trace))
    ∧ ((runPipelineCli ⟨true, true, true, true, true, true, true, true, true, true,
        false, true, true, true, true⟩).2
          = RunOutcome.failed Stage.ancestry Cause.toolFailure
      ∧ Stage.parseAncestry ∉ (runPipelineCli ⟨true, true, true, true, true, true, true,
          true, true, true, false, true, true, true, true⟩).1
      ∧ Stage.report ∉ (runPipelineCli ⟨true, true, true, true, true, true, true, true,
          true, true, false, true, true, true, true⟩).1) :=
  ⟨c2_amended_ancestry_policy.1
      ⟨true, true, true, true, true, true, true, true, true, true, false, true, true,
        true, true⟩
      rfl rfl rfl rfl rfl rfl rfl rfl rfl rfl (Or.inr rfl) (Or.inr rfl),
    c2_amended_ancestry_policy.2
      ⟨true, true, true, true, true, true, true, true, true, true, false, true, true,
        true, true⟩
      rfl rfl rfl rfl rfl rfl rfl rfl rfl rfl rfl⟩

/-- C8: if the required import stage fails (plink exits non-zero), the
`prs_pipeline.py` run ends as `Failed("import", toolFailure)` and no
subsequent stage — normalize-ids, score, recode, convert, ancestry,
parse-ancestry or report — executes in that run. -/
theorem c8_import_failure_aborts :
    ∀ e : Env, e.argsProvided = true → e.vcfExists = true → e.plinkImportOk = false →
      runPipelineCli e
        = ([Stage.validate, Stage.importVcf],
            RunOutcome.failed Stage.importVcf Cause.toolFailure)
      ∧ Stage.normalizeIds ∉ (runPipelineCli e).1
      ∧ Stage.score ∉ (runPipelineCli e).1
      ∧ Stage.recode ∉ (runPipelineCli e).1
      ∧ Stage.convert ∉ (runPipelineCli e).1
      ∧ Stage.ancestry ∉ (runPipelineCli e).1
      ∧ Stage.parseAncestry ∉ (runPipelineCli e).1
      ∧ Stage.report ∉ (runPipelineCli e).1 := by
  intro e h1 h2 h3
  rcases e with ⟨a1, a2, a3, a4, a5, a6, a7, a8, a9, a10, a11, a12, a13, a14, a15⟩
  dsimp only at h1 h2 h3 ⊢
  subst h1 h2 h3
  revert a4 a5 a6 a7 a8 a9 a10 a11 a12 a13 a14 a15
  decide

/-- Witness for C8 at a concrete run whose import stage fails. -/
theorem c8_witness :
    runPipelineCli ⟨true, true, false, true, true, true, true, true, true, true, true,
        true, true, true, true⟩
      = ([Stage.validate, Stage.importVcf],
          RunOutcome.failed Stage.importVcf Cause.toolFailure)
    ∧ Stage.normalizeIds ∉ (runPipelineCli ⟨true, true, false, true, true, true, true,
        true, true, true, true, true, true, true, true⟩).1
    ∧ Stage.score ∉ (runPipelineCli ⟨true, true, false, true, true, true, true, true,
        true, true, true, true, true, true, true⟩).1
    ∧ Stage.recode ∉ (runPipelineCli ⟨true, true, false, true, true, true, true, true,
        true, true, true, true, true, true, true⟩).1
    ∧ Stage.convert ∉ (runPipelineCli ⟨true, true, false, true, true, true, true, true,
        true, true, true, true, true, true, true⟩).1
    ∧ Stage.ancestry ∉ (runPipelineCli ⟨true, true, false, true, true, true, true, true,
        true, true, true, true, true, true, true⟩).1
    ∧ Stage.parseAncestry ∉ (runPipelineCli ⟨true, true, false, true, true, true, true,
        true, true, true, true, true, true, true, true⟩).1
    ∧ Stage.report ∉ (runPipelineCli ⟨true, true, false, true, true, true, true, true,
        true, true, true, true, true, true, true⟩).1 :=
  c8_import_failure_aborts
    ⟨true, true, false, true, true, true, true, true, true, true, true, true, true,
      true, true⟩ rfl rfl rfl

/-- C10: in the `prs_gui.py` pipeline, when the conversion subprocess exits
cleanly but `individual_genotypes2.input` is missing, the orchestrator writes
the one-line placeholder at that path, hands the placeholder to the ancestry
stage via the ancestry-directory copy, and the run never fails at the convert
stage for the missing output. -/
theorem c10_placeholder_on_missing_output :
    ∀ e : GuiEnv,
      e.argsProvided = true → e.scoreDirOk = true → e.vcfExists = true →
      e.plinkImportOk = true → e.plink2NormOk = true → e.parFilesFound = true →
      e.scoreRunOk = true → e.recodeOk = true → e.conversionRunOk = true →
      e.convOutputExists = false →
      (runPipelineCliGui e).placeholderWritten = true
      ∧ (runPipelineCliGui e).handedPlaceholder = true
      ∧ (runPipelineCliGui e).ancestryAttempted = true
      ∧ (runPipelineCliGui e).outcome ≠ RunOutcome.failed Stage.convert Cause.toolFailure
      ∧ (runPipelineCliGui e).outcome
          ≠ RunOutcome.failed Stage.convert Cause.fileNotFound := by
  intro e h1 h2 h3 h4 h5 h6 h7 h8 h9 h10
  rcases e with ⟨a1, a2, a3, a4, a5, a6, a7, a8, a9, a10, a11, a12, a13, a14, a15⟩
  dsimp only at h1 h2 h3 h4 h5 h6 h7 h8 h9 h10 ⊢
  subst h1 h2 h3 h4 h5 h6 h7 h8 h9 h10
  revert a11 a12 a13 a14 a15
  decide

/-- Witness for C10: a run whose conversion subprocess exits 0 without
producing the output file; everything else succeeds. -/
theorem c10_witness :
    (runPipelineCliGui ⟨true, true, true, true, true, true, true, true, true, false,
        true, true, true, true, true⟩).placeholderWritten = true
    ∧ (runPipelineCliGui ⟨true, true, true, true, true, true, true, true, true, false,
        true, true, true, true, true⟩).handedPlaceholder = true
    ∧ (runPipelineCliGui ⟨true, true, true, true, true, true, true, true, true, false,
        true, true, true, true, true⟩).ancestryAttempted = true
    ∧ (runPipelineCliGui ⟨true, true, true, true, true, true, true, true, true, false,
        true, true, true, true, true⟩).outcome
        ≠ RunOutcome.failed Stage.convert Cause.toolFailure
    ∧ (runPipelineCliGui ⟨true, true, true, true, true, true, true, true, true, false,
        true, true, true, true, true⟩).outcome
        ≠ RunOutcome.failed Stage.convert Cause.fileNotFound :=
  c10_placeholder_on_missing_output
    ⟨true, true, true, true, true, true, true, true, true, false, true, true, true,
      true, true⟩ rfl rfl rfl rfl rfl rfl rfl rfl rfl rfl
